import Mathlib

/-!
Verification of the Outreach Scheduler (`backend/python-service/outreach_worker.py`,
`backend/python-service/safety_manager.py`, `backend/python-service/supabase_client.py`).

The Python code is shallowly embedded: Python strings become `List Char`
(so that every operation computes by structural recursion), ISO timestamps
become `Nat` seconds (dates become `Nat` day numbers, with `t / 86400` for
`datetime.date()` of an instant), nullable fields become `Option`, dict-shaped
records become structures, and network/database effects are represented by the
data the worker would write (returned in result structures) while remote results
(AI draft text, transport send success) enter as explicit parameters.
-/

/-- Python `str` is modelled as a list of characters. -/
abbrev Str := List Char

/-- Model of Python `str.lower` for one character: ASCII letters and the
Cyrillic range used by the default trigger phrases. Other characters are
returned unchanged (full Unicode case folding is out of scope). -/
def lowerChar (c : Char) : Char :=
  if 65 ≤ c.toNat ∧ c.toNat ≤ 90 then Char.ofNat (c.toNat + 32)
  else if 0x410 ≤ c.toNat ∧ c.toNat ≤ 0x42F then Char.ofNat (c.toNat + 0x20)
  else if c.toNat = 0x401 then Char.ofNat 0x451
  else c

/-- Model of Python `str.lower`. -/
def lowerStr (s : Str) : Str := s.map lowerChar

/-- Model of Python `str.strip()` (no argument): drop leading and trailing
whitespace. -/
def trimStr (s : Str) : Str :=
  ((s.dropWhile Char.isWhitespace).reverse.dropWhile Char.isWhitespace).reverse

/-- Model of Python `needle in hay` on strings: substring containment. -/
def strContains (needle hay : Str) : Bool := decide (needle <:+: hay)

/-- Model of Python `str.split(sep)` for a one-character separator.
`splitOnChar '-' "a-b"` is `["a", "b"]`; the empty string splits to `[""]`. -/
def splitOnChar (sep : Char) (s : Str) : List Str :=
  match s with
  | [] => [[]]
  | c :: rest =>
    let r := splitOnChar sep rest
    if c = sep then [] :: r
    else
      match r with
      | [] => [[c]]
      | h :: t => (c :: h) :: t

/-- Model of Python `int(s)` restricted to plain decimal digit strings
(`none` models the `ValueError` of `int` on anything else; explicit sign
characters, accepted by Python `int`, do not occur in the data this worker
parses). -/
def digitsToNat? (s : Str) : Option Nat :=
  if s = [] then none
  else
    s.foldl
      (fun acc c =>
        match acc with
        | none => none
        | some n => if c.isDigit then some (n * 10 + (c.toNat - 48)) else none)
      (some 0)

/-- Source `_normalize_username` (outreach_worker.py:120-123):
`str(value).strip().lstrip('@').lower()`; `lstrip('@')` removes every
leading `'@'`. -/
def normalizeUsername (s : Str) : Str :=
  lowerStr ((trimStr s).dropWhile (· = '@'))

-- String constants used by the worker.
def sMe : Str := "me".toList
def sThem : Str := "them".toList
def sLead : Str := "lead".toList
def sNotLead : Str := "not_lead".toList
def sNone : Str := "none".toList
def sManual : Str := "manual".toList
def sActive : Str := "active".toList
def sPaused : Str := "paused".toList
def sBanned : Str := "banned".toList
def sFailed : Str := "failed".toList
def sFlood : Str := "flood".toList
def sFloodWait : Str := "floodwait".toList
def sBot : Str := "bot".toList
def sI7 : Str := "i7".toList
def sI8 : Str := "i8".toList

/-- The error string `send_message` produces for Telethon's `PeerFloodError`
(outreach_worker.py:838-839), the abuse-flood signal that carries no wait
time. -/
def peerFloodError : Str := "PeerFlood - account limited".toList

/-- A local clock time as (hour, minute), the data of a Python
`datetime.time` restricted to the fields this worker uses. -/
abbrev LocalTime := Nat × Nat

/-- Python `time` comparison `a <= b` (lexicographic on hour, minute). -/
def timeLeB (a b : LocalTime) : Bool :=
  decide (a.1 < b.1 ∨ (a.1 = b.1 ∧ a.2 ≤ b.2))

/-- Python `time` comparison `a < b` (lexicographic on hour, minute). -/
def timeLtB (a b : LocalTime) : Bool :=
  decide (a.1 < b.1 ∨ (a.1 = b.1 ∧ a.2 < b.2))

/-- Source `_parse_sleep_period` (outreach_worker.py:57-64): split "HH:MM-HH:MM"
into ((start_hour, start_min), (end_hour, end_min)); any shape or parse
failure yields `none` (the `except` branch). -/
def parseSleepPeriod (s : Str) : Option (LocalTime × LocalTime) :=
  match splitOnChar '-' (trimStr s) with
  | [startStr, endStr] =>
    match splitOnChar ':' (trimStr startStr), splitOnChar ':' (trimStr endStr) with
    | [shS, smS], [ehS, emS] =>
      match digitsToNat? (trimStr shS), digitsToNat? (trimStr smS),
            digitsToNat? (trimStr ehS), digitsToNat? (trimStr emS) with
      | some sh, some sm, some eh, some em => some ((sh, sm), (eh, em))
      | _, _, _, _ => none
    | _, _ => none
  | _ => none

/-- Loop body of `_is_sleep_time` (outreach_worker.py:67-84) over the period
list. A parsed component outside the valid clock range makes `strptime`
raise an uncaught `ValueError` inside `_is_sleep_time`; that is modelled as
`none`. Otherwise: a window with start > end wraps midnight (quiet when
now >= start or now <= end), any other window is quiet when
start <= now <= end. -/
def isSleepTimeGo (now : LocalTime) : List Str → Option Bool
  | [] => some false
  | p :: rest =>
    match parseSleepPeriod p with
    | none => isSleepTimeGo now rest
    | some ((sh, sm), (eh, em)) =>
      if sh ≤ 23 ∧ sm ≤ 59 ∧ eh ≤ 23 ∧ em ≤ 59 then
        if timeLtB (eh, em) (sh, sm) = true then
          if timeLeB (sh, sm) now = true ∨ timeLeB now (eh, em) = true then some true
          else isSleepTimeGo now rest
        else
          if timeLeB (sh, sm) now = true ∧ timeLeB now (eh, em) = true then some true
          else isSleepTimeGo now rest
      else none

/-- Source `_is_sleep_time` (outreach_worker.py:67-84), parameterized by the local
clock time `now` (the code computes it from UTC and the campaign timezone
offset). An empty period list is never quiet. -/
def isSleepTime (periods : List Str) (now : LocalTime) : Option Bool :=
  if periods = [] then some false else isSleepTimeGo now periods

/-- A row of `outreach_accounts` as the worker reads it (the fields the
scheduler consults and writes). `lastSentDate` is a day number,
`cooldownUntil` and `lastUsedAt` are instants in seconds. -/
structure Account where
  id : Nat
  status : Str
  messagesSentToday : Nat
  lastSentDate : Option Nat
  cooldownUntil : Option Nat
  lastUsedAt : Option Nat
deriving DecidableEq

/-- Source `OutreachWorker._get_messages_sent_today` (outreach_worker.py:1189-1194):
the stored counter, read as 0 whenever `last_sent_date` exists and differs
from today. -/
def getMessagesSentToday (today : Nat) (a : Account) : Nat :=
  match a.lastSentDate with
  | some d => if d ≠ today then 0 else a.messagesSentToday
  | none => a.messagesSentToday

/-- Source `OutreachWorker._is_account_in_cooldown` (outreach_worker.py:1183-1187):
in cooldown iff `cooldown_until` parses and lies strictly in the future. -/
def isAccountInCooldown (now : Nat) (a : Account) : Bool :=
  match a.cooldownUntil with
  | some t => decide (now < t)
  | none => false

/-- The account bookkeeping done right after a successful automatic send
(outreach_worker.py:1550-1558, 1684-1692 and 1919-1927, which are letter
identical): `messages_sent_today := messages_today + 1` where
`messages_today` was read through `_get_messages_sent_today`,
`last_sent_date := today`, `last_used_at := now`. -/
def applySuccessfulSend (now today : Nat) (a : Account) : Account :=
  { a with
    messagesSentToday := getMessagesSentToday today a + 1
    lastSentDate := some today
    lastUsedAt := some now }

/-- The account-selection loop of `_send_initial_messages`
(outreach_worker.py:1466-1483): scan at most `len(accounts)` positions from
`account_index` (with wrap-around), skip accounts in cooldown, and take the
first whose day-adjusted counter is below the campaign daily limit,
returning it with the index it was found at. -/
def findAvailableAccountLoop (now today limit : Nat) (accounts : List Account) :
    Nat → Nat → Option (Account × Nat)
  | _, 0 => none
  | idx, fuel + 1 =>
    match accounts[idx % accounts.length]? with
    | none => none
    | some acc =>
      if isAccountInCooldown now acc = true then
        findAvailableAccountLoop now today limit accounts (idx + 1) fuel
      else if getMessagesSentToday today acc < limit then some (acc, idx)
      else findAvailableAccountLoop now today limit accounts (idx + 1) fuel

/-- Entry point of the selection loop: `for _ in range(len(accounts))`. -/
def findAvailableAccount (now today limit : Nat) (accounts : List Account)
    (startIdx : Nat) : Option (Account × Nat) :=
  findAvailableAccountLoop now today limit accounts startIdx accounts.length

/-- One message of a chat history (`outreach_messages` rows: sender is
"me" or "them"). -/
structure Msg where
  sender : Str
  content : Str
deriving DecidableEq

/-- A row of `outreach_chats` as the worker reads it. Python reads absent
`lead_status` as `''` (`chat.get('lead_status') or ''`), so the empty string
models NULL here. -/
structure Chat where
  id : Nat
  accountId : Nat
  targetUsername : Str
  status : Str
  leadStatus : Str
  processedAt : Option Nat
  followUpSentAt : Option Nat
  lastMessageSender : Str
  lastMessageAt : Option Nat
deriving DecidableEq

/-- The campaign safety settings `_get_campaign_safety`
(outreach_worker.py:944-996) extracts, restricted to the fields the send
paths branch on (the delay ranges only feed `asyncio.sleep`). -/
structure Safety where
  dailyLimit : Nat
  accountCooldownHours : Nat
  followUpEnabled : Bool
  followUpDelayHours : Nat
  replyOnlyIfPreviouslyWrote : Bool
  ignoreBotUsernames : Bool
deriving DecidableEq

/-- The lead-detection settings `_get_lead_settings`
(outreach_worker.py:998-1020) extracts, restricted to the fields the reply
state machine branches on; the trigger phrases and the fallback text arrive
already stripped, so `[]` models a missing or blank configuration value. -/
structure LeadSettings where
  triggerPhrasePositive : Str
  triggerPhraseNegative : Str
  useFallbackOnAiFail : Bool
  fallbackText : Str
deriving DecidableEq

/-- Source `OutreachWorker._detect_lead_status` (outreach_worker.py:1053-1063):
case-insensitive substring search for the configured trigger phrases in the
drafted reply, positive phrase first. -/
def detectLeadStatus (response : Str) (ls : LeadSettings) : Option Str :=
  if response = [] then none
  else
    let responseLower := lowerStr response
    let posPhrase := lowerStr ls.triggerPhrasePositive
    let negPhrase := lowerStr ls.triggerPhraseNegative
    if posPhrase ≠ [] ∧ strContains posPhrase responseLower = true then some sLead
    else if negPhrase ≠ [] ∧ strContains negPhrase responseLower = true then some sNotLead
    else none

/-- The record-store writes of `_handle_lead_detection`: the returned lead
status, the chat row afterwards, and the `outreach_processed_clients` row
written (the normalized handle), if any. -/
structure LeadOutcome where
  result : Option Str
  chat : Chat
  processedClientWritten : Option Str
deriving DecidableEq

/-- Source `OutreachWorker._handle_lead_detection` (outreach_worker.py:1080-1181),
its store writes. Nothing happens without a trigger match; an existing
non-none `lead_status` short-circuits; otherwise the chat is moved to
`lead_status`/`processed_at`/`status = 'manual'`, and, when the chat has a
target username, the target row and a ProcessedClient record (normalized
handle) are written. The operator notifications and message forwarding
(lines 1110-1149) are outbound side channels with no bearing on scheduler
state and are not represented. -/
def handleLeadDetection (now : Nat) (chat : Chat) (response : Str)
    (ls : LeadSettings) : LeadOutcome :=
  match detectLeadStatus response ls with
  | none => ⟨none, chat, none⟩
  | some leadSt =>
    let existing := lowerStr chat.leadStatus
    if existing ≠ [] ∧ existing ≠ sNone then ⟨some existing, chat, none⟩
    else
      let chat' := { chat with leadStatus := leadSt, processedAt := some now, status := sManual }
      if chat.targetUsername ≠ [] then
        ⟨some leadSt, chat', some (normalizeUsername chat.targetUsername)⟩
      else ⟨some leadSt, chat', none⟩

/-- Whether a chat history contains a message sent by us; Python
`any(msg.get('sender') == 'me' for msg in history)`
(outreach_worker.py:1653, 1885). -/
def hasMsgFromUs (history : List Msg) : Bool :=
  history.any fun m => decide (m.sender = sMe)

/-- Bot-username test of the reply phase (outreach_worker.py:1781-1785):
lower-case the stored handle, match a `bot` ending or an `i7`/`i8` start. -/
def isBotLikeReply (u : Str) : Bool :=
  let un := lowerStr u
  decide (sBot <:+ un) || decide (sI7 <+: un) || decide (sI8 <+: un)

/-- Bot-username test of the initial phase (outreach_worker.py:1448-1450):
`username.lower().lstrip('@')`, then the same ending/start match. -/
def isBotLikeInitial (u : Str) : Bool :=
  let un := (lowerStr u).dropWhile (· = '@')
  decide (sBot <:+ un) || decide (sI7 <+: un) || decide (sI8 <+: un)

/-- Everything one pass of the reply state machine writes for one incoming
message: the account and chat rows afterwards, the history afterwards, the
text handed to `send_message` (when reached), whether that send succeeded,
and the lead-detection writes. -/
structure ReplyTurn where
  account : Account
  chat : Chat
  history : List Msg
  attemptedSend : Option Str
  sendSucceeded : Bool
  leadResult : Option Str
  processedClientWritten : Option Str
deriving DecidableEq

/-- The body of `for msg in new_messages` in `_check_for_replies`
(outreach_worker.py:1867-1962) for one incoming message. The AI draft
(`aiResponse`, `None` or the returned text, possibly empty) and the
transport result (`sendOk`) are oracles. An empty incoming text is skipped
outright; otherwise the message is recorded (history append plus the chat's
`last_message_*` update done by `add_message`); then, when an AI handler
exists and neither the previously-wrote guard nor the daily limit stops the
turn, the draft (or, when it is falsy, the configured non-empty fallback
text, if enabled) is sent, and on transport success the account counters
are bumped, the reply is recorded, and lead detection runs over the sent
text against the chat dict (whose lead fields no earlier write of this turn
touches). -/
def processIncomingMessage (aiEnabled : Bool) (safety : Safety)
    (ls : LeadSettings) (now today : Nat) (a : Account) (chat : Chat)
    (history : List Msg) (incoming : Str) (aiResponse : Option Str)
    (sendOk : Bool) : ReplyTurn :=
  if incoming = [] then ⟨a, chat, history, none, false, none, none⟩
  else
    let history1 := history ++ [⟨sThem, incoming⟩]
    let chat1 : Chat := { chat with lastMessageAt := some now, lastMessageSender := sThem }
    let skipTurn : ReplyTurn := ⟨a, chat1, history1, none, false, none, none⟩
    if aiEnabled = false then skipTurn
    else if safety.replyOnlyIfPreviouslyWrote = true ∧ hasMsgFromUs history1 = false then
      skipTurn
    else if safety.dailyLimit ≤ getMessagesSentToday today a then skipTurn
    else
      let draft : Option Str :=
        match aiResponse with
        | some s => if s = [] then none else some s
        | none => none
      let response : Option Str :=
        match draft with
        | none =>
          if ls.useFallbackOnAiFail = true ∧ ls.fallbackText ≠ [] then some ls.fallbackText
          else none
        | some s => some s
      match response with
      | none => skipTurn
      | some resp =>
        if sendOk = false then ⟨a, chat1, history1, some resp, false, none, none⟩
        else
          let a' := applySuccessfulSend now today a
          let history2 := history1 ++ [⟨sMe, resp⟩]
          let lead := handleLeadDetection now chat resp ls
          let chat2 : Chat :=
            { lead.chat with lastMessageAt := some now, lastMessageSender := sMe }
          ⟨a', chat2, history2, some resp, true, lead.result, lead.processedClientWritten⟩

/-- The writes of one `_maybe_send_follow_up` evaluation: whether the
transport send was reached, whether it succeeded, and the chat and account
rows afterwards. -/
structure FollowUpResult where
  attempted : Bool
  sent : Bool
  chat : Chat
  account : Account
deriving DecidableEq

/-- Source `OutreachWorker._maybe_send_follow_up` (outreach_worker.py:1616-1698).
`hasFollowUpAi` is `follow_up_ai is not None`; the AI draft and transport
result are oracles. Every guard returns with no writes; after a successful
send the reply is recorded (`add_message`, which moves `last_message_*`),
`follow_up_sent_at` is stamped, and the account counters are bumped. -/
def maybeSendFollowUp (hasFollowUpAi : Bool) (safety : Safety)
    (now today : Nat) (chat : Chat) (a : Account) (history : List Msg)
    (aiResponse : Option Str) (sendOk : Bool) : FollowUpResult :=
  let noSend : FollowUpResult := ⟨false, false, chat, a⟩
  if hasFollowUpAi = false ∨ safety.followUpEnabled = false then noSend
  else if lowerStr chat.leadStatus ≠ [] ∧ lowerStr chat.leadStatus ≠ sNone then noSend
  else if chat.processedAt.isSome then noSend
  else if chat.followUpSentAt.isSome then noSend
  else if chat.lastMessageSender ≠ sMe then noSend
  else
    match chat.lastMessageAt with
    | none => noSend
    | some lastAt =>
      if (now : Int) - lastAt < safety.followUpDelayHours * 3600 then noSend
      else if safety.dailyLimit ≤ getMessagesSentToday today a then noSend
      else if safety.replyOnlyIfPreviouslyWrote = true ∧ hasMsgFromUs history = false then
        noSend
      else
        match aiResponse with
        | none => noSend
        | some resp =>
          if resp = [] then noSend
          else if chat.targetUsername = [] then noSend
          else if sendOk = false then ⟨true, false, chat, a⟩
          else
            ⟨true, true,
             { chat with
               lastMessageAt := some now
               lastMessageSender := sMe
               followUpSentAt := some now },
             applySuccessfulSend now today a⟩

/-- How the per-target screening of `_send_initial_messages`
(outreach_worker.py:1435-1464) disposes of one pending target before any
account is picked. -/
inductive TargetOutcome where
  | failedNoIdentifier
  | failedBot
  | failedProcessed
  | send (handle : Str)
deriving DecidableEq

/-- The per-target screening of `_send_initial_messages`
(outreach_worker.py:1435-1464): no identifier fails the target, a bot-like
username fails it (when the campaign ignores bots), a username whose
non-empty normalization is already a processed client fails it with
"Processed client", anything else goes on to the send. -/
def initialTargetCheck (ignoreBots : Bool) (processed : List Str)
    (username phone : Str) : TargetOutcome :=
  let identifier := if username ≠ [] then username else phone
  if identifier = [] then .failedNoIdentifier
  else if username ≠ [] ∧ ignoreBots = true ∧ isBotLikeInitial username = true then
    .failedBot
  else if username ≠ [] ∧ normalizeUsername username ≠ [] ∧
      normalizeUsername username ∈ processed then
    .failedProcessed
  else .send identifier

/-- The screening a chat goes through at the top of the `for chat in chats`
loop of `_check_for_replies` (outreach_worker.py:1755-1792), all of it
before the Telegram client is acquired: `false` means the loop `continue`s
(so no read, AI call, send or follow-up happens for this chat on this
pass), `true` means the body goes on to `get_client` and the network. -/
def chatPrecheck (safety : Safety) (processed : List Str)
    (accounts : List Account) (now : Nat) (chat : Chat) : Bool :=
  if chat.status = sManual then false
  else if lowerStr chat.leadStatus ≠ [] ∧ lowerStr chat.leadStatus ≠ sNone then false
  else if chat.processedAt.isSome then false
  else if normalizeUsername chat.targetUsername ≠ [] ∧
      normalizeUsername chat.targetUsername ∈ processed then false
  else if safety.ignoreBotUsernames = true ∧ isBotLikeReply chat.targetUsername = true then
    false
  else
    match accounts.find? (fun x => decide (x.id = chat.accountId)) with
    | none => false
    | some account => ! isAccountInCooldown now account

/-- What the failure branch of `_send_initial_messages` writes
(outreach_worker.py:1577-1603) when `send_message` fails: the target status,
the account status update (if any), and the account `cooldown_until` update
(if any). -/
structure FailureEffect where
  targetStatus : Str
  accountStatus : Option Str
  cooldownUntil : Option Nat
deriving DecidableEq

/-- The `FloodWait` second extraction (outreach_worker.py:1592-1596):
`int(error.split(':')[-1].strip().replace('s', ''))`, falling back to the
campaign cooldown on a parse error. -/
def parseFloodSeconds (error : Str) (fallback : Nat) : Nat :=
  let lastPart := ((splitOnChar ':' error).getLast?).getD []
  match digitsToNat? ((trimStr lastPart).filter fun c => c != 's') with
  | some n => n
  | none => fallback

/-- The failure branch of `_send_initial_messages`
(outreach_worker.py:1577-1603): the target is failed; when the lowered
error mentions "flood" the account is paused with `cooldown_until` now plus
either the explicitly signalled FloodWait seconds or the campaign's
`account_cooldown_hours`; any other error touches only the target. -/
def handleSendFailure (cooldownHours : Nat) (now : Nat) (error : Str) :
    FailureEffect :=
  let el := lowerStr error
  if strContains sFlood el = true then
    let seconds :=
      if strContains sFloodWait el = true then parseFloodSeconds error (cooldownHours * 3600)
      else cooldownHours * 3600
    ⟨sFailed, some sPaused, some (now + seconds)⟩
  else ⟨sFailed, none, none⟩

/-- A row of `telegram_accounts` as `SafetyManager` (safety_manager.py) and
`get_accounts_for_user` (supabase_client.py:104-117) read it. `lastUsedAt`
is an instant in seconds; its day is `t / 86400`. -/
structure TgAccount where
  id : Nat
  accountName : Str
  status : Str
  isAvailable : Bool
  messagesSentToday : Nat
  lastUsedAt : Option Nat
  dailyLimit : Option Nat
  reliabilityScore : Nat
  totalMessagesSent : Nat
deriving DecidableEq

/-- Source `SafetyManager._is_daily_limit_reached` (safety_manager.py:78-121):
the stored counter (read as 0 when `last_used_at` is from an earlier day)
is maxed with the in-memory session cache `cache` (per-account count for
today; a stale cache entry is reset to 0 before the comparison, so `cache`
holds today's counts), against the per-account limit, defaulting to 3. -/
def isDailyLimitReached (now : Nat) (cache : Nat → Nat) (a : TgAccount) : Bool :=
  let dbCount :=
    match a.lastUsedAt with
    | some t => if t / 86400 < now / 86400 then 0 else a.messagesSentToday
    | none => a.messagesSentToday
  let messagesToday := max dbCount (cache a.id)
  let limit := a.dailyLimit.getD 3
  decide (limit ≤ messagesToday)

/-- Source `SafetyManager._needs_cooldown` (safety_manager.py:123-137): less than
`ACCOUNT_COOLDOWN` (1200 s by default, config.py:67) since the last use;
a never-used account needs none. -/
def needsCooldown (now : Nat) (a : TgAccount) : Bool :=
  match a.lastUsedAt with
  | none => false
  | some t => decide ((now : Int) - t < 1200)

/-- The DB-side ordering of `get_accounts_for_user`
(supabase_client.py:104-117): `ORDER BY last_used_at ASC NULLS FIRST` as a
relation — a never-used account precedes every other. -/
def idleLe (a b : TgAccount) : Bool :=
  match a.lastUsedAt, b.lastUsedAt with
  | none, _ => true
  | some _, none => false
  | some x, some y => decide (x ≤ y)

/-- The row filter of `get_accounts_for_user` (supabase_client.py:104-117):
`status = 'active' AND is_available = true`. The `ORDER BY` clause is
expressed as a `Pairwise idleLe` hypothesis on the row list where it
matters. -/
def getAccountsForUser (rows : List TgAccount) : List TgAccount :=
  rows.filter fun a => decide (a.status = sActive) && a.isAvailable

/-- Source `SafetyManager.get_available_account` (safety_manager.py:27-62): walk
the rows `get_accounts_for_user` returns in order, skip any account at its
daily limit or inside the inter-use cooldown, and return the first that
passes; `none` when every account is unavailable. -/
def getAvailableAccount (now : Nat) (cache : Nat → Nat)
    (rows : List TgAccount) : Option TgAccount :=
  (getAccountsForUser rows).find? fun a =>
    ! isDailyLimitReached now cache a && ! needsCooldown now a

/-- Modelled from the spec: the "priority score combining reliability and
historical volume" that §4.1 says ranks the candidates. No such score
exists anywhere in the source; this representative combination (their sum,
monotone in both) realizes the spec's words for comparison with the code. -/
def specPriorityScore (a : TgAccount) : Nat :=
  a.reliabilityScore + a.totalMessagesSent

/-- Modelled from the spec: "ranked by a priority score … (higher score
first); ties broken by longest-idle (`last_used_at` ascending / never-used
first)". -/
def specRankBetter (a b : TgAccount) : Bool :=
  decide (specPriorityScore b < specPriorityScore a) ||
    (decide (specPriorityScore a = specPriorityScore b) && idleLe a b)

/-- Modelled from the spec (§4.1 `selectIdentity`): filter to the active,
available candidates that are under the daily limit and out of cooldown,
then return the highest-ranked by `specRankBetter`. -/
def specSelectIdentity (now : Nat) (cache : Nat → Nat)
    (rows : List TgAccount) : Option TgAccount :=
  let candidates := rows.filter fun a =>
    decide (a.status = sActive) && a.isAvailable &&
      ! isDailyLimitReached now cache a && ! needsCooldown now a
  candidates.foldl
    (fun best a =>
      match best with
      | none => some a
      | some b => if specRankBetter a b then some a else some b)
    none

-- Concrete fixtures used by witnesses and counterexamples.
def freshAccountRow : TgAccount :=
  ⟨2, "fresh".toList, sActive, true, 0, none, none, 10, 0⟩
def veteranAccountRow : TgAccount :=
  ⟨1, "veteran".toList, sActive, true, 0, some 1000, none, 90, 500⟩
def acct1 : Account := ⟨7, sActive, 4, some 9, none, some 100⟩
def acctCooling : Account := ⟨8, sActive, 0, none, some 5000, none⟩
def chatFresh : Chat := ⟨11, 7, "alice".toList, sActive, [], none, none, sMe, some 1000⟩
def chatDone : Chat := ⟨12, 7, "alice".toList, sActive, sLead, some 500, none, sMe, some 1000⟩
def chatCooling : Chat := ⟨13, 8, "bob".toList, sActive, [], none, none, sMe, none⟩
def chatFollowedUp : Chat := ⟨14, 7, "alice".toList, sActive, [], none, some 42, sMe, some 1000⟩
def safetyCfg : Safety := ⟨20, 5, true, 24, true, true⟩
def leadCfg : LeadSettings := ⟨"yes deal".toList, "no deal".toList, true, "fallback text".toList⟩

theorem getMessagesSentToday_applySend (now today : Nat) (a : Account) :
    getMessagesSentToday today (applySuccessfulSend now today a) =
      getMessagesSentToday today a + 1 := by
  simp [applySuccessfulSend, getMessagesSentToday]

theorem idleLe_refl (a : TgAccount) : idleLe a a = true := by
  unfold idleLe
  cases a.lastUsedAt <;> simp

theorem find?_min_of_pairwise {α : Type} {R : α → α → Prop} {p : α → Bool} :
    ∀ {l : List α} {a : α}, List.Pairwise R l → l.find? p = some a →
      ∀ b ∈ l, p b = true → a = b ∨ R a b := by
  intro l
  induction l with
  | nil => intro a _ hf; simp at hf
  | cons x xs ih =>
    intro a hp hf b hb hpb
    rcases List.pairwise_cons.mp hp with ⟨hR, hxs⟩
    by_cases hx : p x = true
    · rw [List.find?_cons_of_pos _ hx] at hf
      injection hf with hax
      subst hax
      rcases List.mem_cons.mp hb with rfl | hb'
      · exact Or.inl rfl
      · exact Or.inr (hR b hb')
    · rw [List.find?_cons_of_neg _ (by simpa using hx)] at hf
      rcases List.mem_cons.mp hb with rfl | hb'
      · exact absurd hpb hx
      · exact ih hxs hf b hb' hpb

theorem findAvailableAccountLoop_spec (now today limit : Nat)
    (accounts : List Account) :
    ∀ fuel idx acc i,
      findAvailableAccountLoop now today limit accounts idx fuel = some (acc, i) →
      isAccountInCooldown now acc = false ∧
        getMessagesSentToday today acc < limit := by
  intro fuel
  induction fuel with
  | zero => intro idx acc i h; simp [findAvailableAccountLoop] at h
  | succ n ih =>
    intro idx acc i h
    unfold findAvailableAccountLoop at h
    cases hg : accounts[idx % accounts.length]? with
    | none => rw [hg] at h; simp at h
    | some acc' =>
      rw [hg] at h
      dsimp only at h
      by_cases hc : isAccountInCooldown now acc' = true
      · rw [if_pos hc] at h
        exact ih _ _ _ h
      · rw [if_neg hc] at h
        by_cases hl : getMessagesSentToday today acc' < limit
        · rw [if_pos hl] at h
          injection h with h'
          rw [Prod.mk.injEq] at h'
          obtain ⟨rfl, rfl⟩ := h'
          exact ⟨by simpa using hc, hl⟩
        · rw [if_neg hl] at h
          exact ih _ _ _ h

/-- C10: lead detection over a drafted reply is case-insensitive substring
matching of the configured trigger phrases: `lead` exactly when the
non-empty positive phrase occurs; `not_lead` exactly when the non-empty
negative phrase occurs and the positive one does not (positive takes
precedence); no detection exactly when the reply is empty or neither
configured phrase occurs. -/
theorem detect_lead_status_characterization :
    ∀ (response : Str) (ls : LeadSettings),
      (detectLeadStatus response ls = some sLead ↔
        response ≠ [] ∧ lowerStr ls.triggerPhrasePositive ≠ [] ∧
          strContains (lowerStr ls.triggerPhrasePositive) (lowerStr response) = true) ∧
      (detectLeadStatus response ls = some sNotLead ↔
        response ≠ [] ∧
          (lowerStr ls.triggerPhraseNegative ≠ [] ∧
            strContains (lowerStr ls.triggerPhraseNegative) (lowerStr response) = true) ∧
          ¬(lowerStr ls.triggerPhrasePositive ≠ [] ∧
            strContains (lowerStr ls.triggerPhrasePositive) (lowerStr response) = true)) ∧
      (detectLeadStatus response ls = none ↔
        response = [] ∨
          (¬(lowerStr ls.triggerPhrasePositive ≠ [] ∧
              strContains (lowerStr ls.triggerPhrasePositive) (lowerStr response) = true) ∧
            ¬(lowerStr ls.triggerPhraseNegative ≠ [] ∧
              strContains (lowerStr ls.triggerPhraseNegative) (lowerStr response) = true))) := by
  intro response ls
  by_cases h1 : response = []
  · simp [detectLeadStatus, h1]
  · by_cases hp : lowerStr ls.triggerPhrasePositive ≠ [] ∧
        strContains (lowerStr ls.triggerPhrasePositive) (lowerStr response) = true
    · simp [detectLeadStatus, h1, hp, show sLead ≠ sNotLead from by decide]
    · by_cases hn : lowerStr ls.triggerPhraseNegative ≠ [] ∧
          strContains (lowerStr ls.triggerPhraseNegative) (lowerStr response) = true
      · simp [detectLeadStatus, h1, hp, hn, show sNotLead ≠ sLead from by decide]
      · simp [detectLeadStatus, h1, hp, hn]

/-- C6: the quiet-hours gate is quiet exactly when the local clock time
falls inside a configured window; a window whose start is later than its
end wraps midnight (quiet iff now >= start or now <= end), otherwise quiet
iff start <= now <= end; in particular "21:00-08:00" is quiet at 23:00 and
07:00 and not at 12:00, and "13:00-14:00" is quiet at 13:30 and not at
15:00. -/
theorem sleep_window_characterization :
    (∀ (p : Str) (sh sm eh em : Nat) (now : LocalTime),
      parseSleepPeriod p = some ((sh, sm), (eh, em)) →
      sh ≤ 23 → sm ≤ 59 → eh ≤ 23 → em ≤ 59 →
      isSleepTime [p] now =
        some (if timeLtB (eh, em) (sh, sm) = true then
                timeLeB (sh, sm) now || timeLeB now (eh, em)
              else
                timeLeB (sh, sm) now && timeLeB now (eh, em))) ∧
    isSleepTime ["21:00-08:00".toList] (23, 0) = some true ∧
    isSleepTime ["21:00-08:00".toList] (7, 0) = some true ∧
    isSleepTime ["21:00-08:00".toList] (12, 0) = some false ∧
    isSleepTime ["13:00-14:00".toList] (13, 30) = some true ∧
    isSleepTime ["13:00-14:00".toList] (15, 0) = some false := by
  refine ⟨?_, by decide, by decide, by decide, by decide, by decide⟩
  intro p sh sm eh em now hp h1 h2 h3 h4
  unfold isSleepTime
  rw [if_neg (by simp)]
  unfold isSleepTimeGo
  rw [hp]
  dsimp only
  rw [if_pos ⟨h1, h2, h3, h4⟩]
  by_cases hw : timeLtB (eh, em) (sh, sm) = true
  · rw [if_pos hw, if_pos hw]
    by_cases hq : timeLeB (sh, sm) now = true ∨ timeLeB now (eh, em) = true
    · rw [if_pos hq]
      rcases hq with hq | hq <;> simp [hq]
    · rw [if_neg hq]
      push_neg at hq
      unfold isSleepTimeGo
      simp [hq.1, hq.2]
  · rw [if_neg hw, if_neg hw]
    by_cases hq : timeLeB (sh, sm) now = true ∧ timeLeB now (eh, em) = true
    · rw [if_pos hq]
      simp [hq.1, hq.2]
    · rw [if_neg hq]
      unfold isSleepTimeGo
      rcases Decidable.not_and_iff_or_not.mp hq with hq' | hq' <;> simp [hq']

/-- C3 counterexample: on the abuse-flood error with no wait time
(`PeerFloodError`) and `cooldown_hours = 5`, the failure branch does set
`cooldown_until = now + 5h` (now = 0, 18000 s), but it also overwrites the
account's `status` with `'paused'` — the status does not remain
`'active'` as the claim states. -/
theorem abuse_flood_claim_counterexample :
    (handleSendFailure 5 0 peerFloodError).cooldownUntil = some 18000 ∧
    (handleSendFailure 5 0 peerFloodError).accountStatus = some sPaused ∧
    sPaused ≠ sActive := by decide

/-- C3 (amended): on an abuse-flood failure with no explicit wait and
`cooldown_hours = 5`, the account gets `cooldown_until = now + 5h` and its
status is set to `'paused'` (not banned; the cooldown sweep later restores
`'active'`). -/
theorem abuse_flood_default_cooldown :
    ∀ now : Nat,
      handleSendFailure 5 now peerFloodError =
        ⟨sFailed, some sPaused, some (now + 18000)⟩ ∧
      sPaused ≠ sBanned := by
  intro now
  exact ⟨rfl, by decide⟩

/-- C5 counterexample: with two eligible candidates — `freshAccountRow`
(never used, reliability 10, volume 0) and `veteranAccountRow` (long idle
but used once, reliability 90, volume 500), listed in the store's
`last_used_at ASC NULLS FIRST` order — the code returns the never-used,
strictly lower-reliability, strictly lower-volume account, while the
spec's score-first ranking (any combination monotone in reliability and
volume, here their sum) would return the other. Selection is idle-order
only; no priority score exists in the source. -/
theorem select_identity_claim_counterexample :
    getAvailableAccount 1000000 (fun _ => 0) [freshAccountRow, veteranAccountRow] =
      some freshAccountRow ∧
    specSelectIdentity 1000000 (fun _ => 0) [freshAccountRow, veteranAccountRow] =
      some veteranAccountRow ∧
    freshAccountRow ≠ veteranAccountRow ∧
    freshAccountRow.reliabilityScore < veteranAccountRow.reliabilityScore ∧
    freshAccountRow.totalMessagesSent < veteranAccountRow.totalMessagesSent ∧
    idleLe freshAccountRow veteranAccountRow = true := by decide

/-- C5 (amended): `get_available_account` returns the first candidate, in
`last_used_at` ascending order with never-used accounts first, that is
active, available, under its daily limit and out of the inter-use
cooldown — so the selected account is at least as idle as every other
eligible candidate; no reliability/volume score is consulted. -/
theorem select_identity_idle_rotation :
    ∀ (now : Nat) (cache : Nat → Nat) (rows : List TgAccount) (a : TgAccount),
      rows.Pairwise (fun x y => idleLe x y = true) →
      getAvailableAccount now cache rows = some a →
      (a.status = sActive ∧ a.isAvailable = true ∧
        isDailyLimitReached now cache a = false ∧ needsCooldown now a = false) ∧
      ∀ b ∈ rows, b.status = sActive → b.isAvailable = true →
        isDailyLimitReached now cache b = false → needsCooldown now b = false →
        idleLe a b = true := by
  intro now cache rows a hsort hfind
  unfold getAvailableAccount getAccountsForUser at hfind
  have hmem := List.mem_of_find?_eq_some hfind
  have hpa := List.find?_some hfind
  rw [List.mem_filter] at hmem
  obtain ⟨hrow, hflt⟩ := hmem
  simp only [Bool.and_eq_true, decide_eq_true_eq] at hflt
  simp only [Bool.and_eq_true, Bool.not_eq_true'] at hpa
  refine ⟨⟨hflt.1, hflt.2, hpa.1, hpa.2⟩, ?_⟩
  intro b hb hbs hba hbl hbc
  have hsort' : (rows.filter fun x => decide (x.status = sActive) && x.isAvailable).Pairwise
      (fun x y => idleLe x y = true) :=
    hsort.sublist (List.filter_sublist rows)
  have hbmem : b ∈ rows.filter fun x => decide (x.status = sActive) && x.isAvailable := by
    rw [List.mem_filter]
    exact ⟨hb, by simp [hbs, hba]⟩
  have hpb : (! isDailyLimitReached now cache b && ! needsCooldown now b) = true := by
    simp [hbl, hbc]
  rcases find?_min_of_pairwise hsort' hfind b hbmem hpb with rfl | hle
  · exact idleLe_refl a
  · exact hle

/-- C5 witness: the amended rotation theorem instantiated on the concrete
two-account table of the counterexample. -/
theorem select_identity_idle_rotation_witness :
    ([freshAccountRow, veteranAccountRow].Pairwise fun x y => idleLe x y = true) ∧
    getAvailableAccount 1000000 (fun _ => 0) [freshAccountRow, veteranAccountRow] =
      some freshAccountRow ∧
    (freshAccountRow.status = sActive ∧ freshAccountRow.isAvailable = true ∧
      isDailyLimitReached 1000000 (fun _ => 0) freshAccountRow = false ∧
      needsCooldown 1000000 freshAccountRow = false) ∧
    idleLe freshAccountRow veteranAccountRow = true := by
  have hs : ([freshAccountRow, veteranAccountRow].Pairwise fun x y => idleLe x y = true) := by
    simp [List.pairwise_cons]
    decide
  have hf : getAvailableAccount 1000000 (fun _ => 0) [freshAccountRow, veteranAccountRow] =
      some freshAccountRow := by decide
  have hmain := select_identity_idle_rotation 1000000 (fun _ => 0)
    [freshAccountRow, veteranAccountRow] freshAccountRow hs hf
  exact ⟨hs, hf, hmain.1,
    hmain.2 veteranAccountRow (by simp) (by decide) (by decide) (by decide) (by decide)⟩

/-- C1: on every automatic send path the scheduler reads the day-adjusted
counter (0 when `last_sent_date` is before today) and only reaches the
transport send while that counter is strictly below the campaign daily
limit; the post-send bookkeeping therefore never pushes the day-adjusted
counter past the limit. Conjuncts: the day adjustment; the initial-message
account selection; the AI-reply turn; the follow-up evaluation. -/
theorem daily_limit_never_exceeded :
    (∀ (today d : Nat) (a : Account), a.lastSentDate = some d → d < today →
      getMessagesSentToday today a = 0) ∧
    (∀ (now today limit : Nat) (accounts : List Account) (startIdx : Nat)
        (acc : Account) (i : Nat),
      findAvailableAccount now today limit accounts startIdx = some (acc, i) →
      getMessagesSentToday today acc < limit ∧
      getMessagesSentToday today (applySuccessfulSend now today acc) ≤ limit) ∧
    (∀ (aiEnabled : Bool) (safety : Safety) (ls : LeadSettings) (now today : Nat)
        (a : Account) (chat : Chat) (history : List Msg) (incoming : Str)
        (aiResponse : Option Str) (sendOk : Bool) (s : Str),
      (processIncomingMessage aiEnabled safety ls now today a chat history incoming
          aiResponse sendOk).attemptedSend = some s →
      getMessagesSentToday today a < safety.dailyLimit ∧
      getMessagesSentToday today
          (processIncomingMessage aiEnabled safety ls now today a chat history incoming
            aiResponse sendOk).account ≤ safety.dailyLimit) ∧
    (∀ (hasAi : Bool) (safety : Safety) (now today : Nat) (chat : Chat) (a : Account)
        (history : List Msg) (aiResponse : Option Str) (sendOk : Bool),
      (maybeSendFollowUp hasAi safety now today chat a history aiResponse
          sendOk).attempted = true →
      getMessagesSentToday today a < safety.dailyLimit ∧
      getMessagesSentToday today
          (maybeSendFollowUp hasAi safety now today chat a history aiResponse
            sendOk).account ≤ safety.dailyLimit) := by
  refine ⟨?_, ?_, ?_, ?_⟩
  · intro today d a hd hlt
    simp [getMessagesSentToday, hd, Nat.ne_of_lt hlt]
  · intro now today limit accounts startIdx acc i h
    have hs := findAvailableAccountLoop_spec now today limit accounts accounts.length
      startIdx acc i h
    refine ⟨hs.2, ?_⟩
    rw [getMessagesSentToday_applySend]
    omega
  · intro aiEnabled safety ls now today a chat history incoming aiResponse sendOk s h
    by_cases h0 : incoming = []
    · simp [processIncomingMessage, h0] at h
    · by_cases h1 : aiEnabled = false
      · simp [processIncomingMessage, h0, h1] at h
      · by_cases h2 : safety.replyOnlyIfPreviouslyWrote = true ∧
            hasMsgFromUs (history ++ [⟨sThem, incoming⟩]) = false
        · simp [processIncomingMessage, h0, h1, h2] at h
        · by_cases h3 : safety.dailyLimit ≤ getMessagesSentToday today a
          · simp [processIncomingMessage, h0, h1, h2, h3] at h
          · have hlt : getMessagesSentToday today a < safety.dailyLimit :=
              Nat.lt_of_not_le h3
            have hle : getMessagesSentToday today a ≤ safety.dailyLimit :=
              Nat.le_of_lt hlt
            have happly :
                getMessagesSentToday today (applySuccessfulSend now today a) ≤
                  safety.dailyLimit := by
              rw [getMessagesSentToday_applySend]
              omega
            refine ⟨hlt, ?_⟩
            rcases aiResponse with _ | s0
            · by_cases hf : ls.useFallbackOnAiFail = true ∧ ls.fallbackText ≠ []
              · cases hsend : sendOk
                · simp [processIncomingMessage, h0, h1, h2, h3, hf, hsend]
                  exact hle
                · simp [processIncomingMessage, h0, h1, h2, h3, hf, hsend]
                  exact happly
              · simp [processIncomingMessage, h0, h1, h2, h3, hf] at h
            · by_cases hs0 : s0 = []
              · by_cases hf : ls.useFallbackOnAiFail = true ∧ ls.fallbackText ≠ []
                · cases hsend : sendOk
                  · simp [processIncomingMessage, h0, h1, h2, h3, hs0, hf, hsend]
                    exact hle
                  · simp [processIncomingMessage, h0, h1, h2, h3, hs0, hf, hsend]
                    exact happly
                · simp [processIncomingMessage, h0, h1, h2, h3, hs0, hf] at h
              · cases hsend : sendOk
                · simp [processIncomingMessage, h0, h1, h2, h3, hs0, hsend]
                  exact hle
                · simp [processIncomingMessage, h0, h1, h2, h3, hs0, hsend]
                  exact happly
  · intro hasAi safety now today chat a history aiResponse sendOk h
    by_cases g1 : hasAi = false ∨ safety.followUpEnabled = false
    · simp [maybeSendFollowUp, g1] at h
    · by_cases g2 : lowerStr chat.leadStatus ≠ [] ∧ lowerStr chat.leadStatus ≠ sNone
      · simp [maybeSendFollowUp, g1, g2] at h
      · by_cases g3 : chat.processedAt.isSome = true
        · simp [maybeSendFollowUp, g1, g2, g3] at h
        · by_cases g4 : chat.followUpSentAt.isSome = true
          · simp [maybeSendFollowUp, g1, g2, g3, g4] at h
          · by_cases g5 : chat.lastMessageSender ≠ sMe
            · simp [maybeSendFollowUp, g1, g2, g3, g4, g5] at h
            · cases hlm : chat.lastMessageAt with
              | none => simp [maybeSendFollowUp, g1, g2, g3, g4, g5, hlm] at h
              | some lastAt =>
                by_cases g6 : (now : Int) - lastAt < safety.followUpDelayHours * 3600
                · simp [maybeSendFollowUp, g1, g2, g3, g4, g5, hlm, g6] at h
                · by_cases g7 : safety.dailyLimit ≤ getMessagesSentToday today a
                  · simp [maybeSendFollowUp, g1, g2, g3, g4, g5, hlm, g6, g7] at h
                  · have hlt : getMessagesSentToday today a < safety.dailyLimit :=
                      Nat.lt_of_not_le g7
                    refine ⟨hlt, ?_⟩
                    have happly :
                        getMessagesSentToday today (applySuccessfulSend now today a) ≤
                          safety.dailyLimit := by
                      rw [getMessagesSentToday_applySend]
                      omega
                    by_cases g8 : safety.replyOnlyIfPreviouslyWrote = true ∧
                        hasMsgFromUs history = false
                    · simp [maybeSendFollowUp, g1, g2, g3, g4, g5, hlm, g6, g7, g8] at h
                    · rcases aiResponse with _ | resp
                      · simp [maybeSendFollowUp, g1, g2, g3, g4, g5, hlm, g6, g7, g8] at h
                      · by_cases g9 : resp = []
                        · simp [maybeSendFollowUp, g1, g2, g3, g4, g5, hlm, g6, g7, g8,
                            g9] at h
                        · by_cases g10 : chat.targetUsername = []
                          · simp [maybeSendFollowUp, g1, g2, g3, g4, g5, hlm, g6, g7, g8,
                              g9, g10] at h
                          · cases hsend : sendOk
                            · simp [maybeSendFollowUp, g1, g2, g3, g4, g5, hlm, g6, g7,
                                g8, g9, g10, hsend]
                              exact Nat.le_of_lt hlt
                            · simp [maybeSendFollowUp, g1, g2, g3, g4, g5, hlm, g6, g7,
                                g8, g9, g10, hsend]
                              exact happly

/-- C1 witness: the four conjuncts instantiated on concrete data — a
day-old counter reads 0; the selection loop picks `acct1` with 4 of 20
sends used; a concrete AI-reply turn and a concrete follow-up evaluation
both stay at or below the limit after the send. -/
theorem daily_limit_never_exceeded_witness :
    (acct1.lastSentDate = some 9 ∧ 9 < 10 ∧ getMessagesSentToday 10 acct1 = 0) ∧
    (findAvailableAccount 0 9 20 [acct1] 0 = some (acct1, 0) ∧
      getMessagesSentToday 9 acct1 < 20 ∧
      getMessagesSentToday 9 (applySuccessfulSend 0 9 acct1) ≤ 20) ∧
    ((processIncomingMessage true safetyCfg leadCfg 0 9 acct1 chatFresh
        [⟨sMe, "hi".toList⟩] "hello".toList (some "ok then".toList) true).attemptedSend =
        some "ok then".toList ∧
      getMessagesSentToday 9 acct1 < safetyCfg.dailyLimit ∧
      getMessagesSentToday 9
          (processIncomingMessage true safetyCfg leadCfg 0 9 acct1 chatFresh
            [⟨sMe, "hi".toList⟩] "hello".toList (some "ok then".toList) true).account ≤
        safetyCfg.dailyLimit) ∧
    ((maybeSendFollowUp true safetyCfg 200000 9 chatFresh acct1 [⟨sMe, "hi".toList⟩]
        (some "ping".toList) true).attempted = true ∧
      getMessagesSentToday 9 acct1 < safetyCfg.dailyLimit ∧
      getMessagesSentToday 9
          (maybeSendFollowUp true safetyCfg 200000 9 chatFresh acct1 [⟨sMe, "hi".toList⟩]
            (some "ping".toList) true).account ≤ safetyCfg.dailyLimit) := by
  have h2 : findAvailableAccount 0 9 20 [acct1] 0 = some (acct1, 0) := by decide
  have h3 : (processIncomingMessage true safetyCfg leadCfg 0 9 acct1 chatFresh
      [⟨sMe, "hi".toList⟩] "hello".toList (some "ok then".toList) true).attemptedSend =
      some "ok then".toList := by decide
  have h4 : (maybeSendFollowUp true safetyCfg 200000 9 chatFresh acct1 [⟨sMe, "hi".toList⟩]
      (some "ping".toList) true).attempted = true := by decide
  refine ⟨⟨rfl, by norm_num, daily_limit_never_exceeded.1 10 9 acct1 rfl (by norm_num)⟩,
    ⟨h2, daily_limit_never_exceeded.2.1 0 9 20 [acct1] 0 acct1 0 h2⟩,
    ⟨h3, daily_limit_never_exceeded.2.2.1 true safetyCfg leadCfg 0 9 acct1 chatFresh
      [⟨sMe, "hi".toList⟩] "hello".toList (some "ok then".toList) true
      "ok then".toList h3⟩,
    ⟨h4, daily_limit_never_exceeded.2.2.2 true safetyCfg 200000 9 chatFresh acct1
      [⟨sMe, "hi".toList⟩] (some "ping".toList) true h4⟩⟩

/-- C2: a conversation whose `lead_status` is set (anything non-empty other
than "none") or whose `processed_at` is set is screened out of the reply
loop before the Telegram client is acquired (so no read, AI call, send or
follow-up happens for it on any pass); re-running lead detection leaves the
chat unchanged and writes nothing; the follow-up evaluator returns without
writes as well. -/
theorem terminal_lead_status_skips_processing :
    (∀ (safety : Safety) (processed : List Str) (accounts : List Account)
        (now : Nat) (chat : Chat),
      ((lowerStr chat.leadStatus ≠ [] ∧ lowerStr chat.leadStatus ≠ sNone) ∨
        chat.processedAt.isSome = true) →
      chatPrecheck safety processed accounts now chat = false) ∧
    (∀ (now : Nat) (chat : Chat) (response : Str) (ls : LeadSettings),
      lowerStr chat.leadStatus ≠ [] → lowerStr chat.leadStatus ≠ sNone →
      (handleLeadDetection now chat response ls).chat = chat ∧
      (handleLeadDetection now chat response ls).processedClientWritten = none) ∧
    (∀ (hasAi : Bool) (safety : Safety) (now today : Nat) (chat : Chat) (a : Account)
        (history : List Msg) (aiResponse : Option Str) (sendOk : Bool),
      ((lowerStr chat.leadStatus ≠ [] ∧ lowerStr chat.leadStatus ≠ sNone) ∨
        chat.processedAt.isSome = true) →
      maybeSendFollowUp hasAi safety now today chat a history aiResponse sendOk =
        ⟨false, false, chat, a⟩) := by
  refine ⟨?_, ?_, ?_⟩
  · intro safety processed accounts now chat hyp
    unfold chatPrecheck
    split_ifs with h1 h2 h3 h4 h5 <;> try rfl
    rcases hyp with hlead | hproc
    · exact absurd hlead h2
    · exact absurd hproc h3
  · intro now chat response ls h1 h2
    rcases hd : detectLeadStatus response ls with _ | leadSt
    · simp [handleLeadDetection, hd]
    · simp [handleLeadDetection, hd, h1, h2]
  · intro hasAi safety now today chat a history aiResponse sendOk hyp
    by_cases g1 : hasAi = false ∨ safety.followUpEnabled = false
    · simp [maybeSendFollowUp, g1]
    · by_cases g2 : lowerStr chat.leadStatus ≠ [] ∧ lowerStr chat.leadStatus ≠ sNone
      · simp [maybeSendFollowUp, g1, g2]
      · rcases hyp with hlead | hproc
        · exact absurd hlead g2
        · simp [maybeSendFollowUp, g1, g2, hproc]

/-- C2 witness: the three conjuncts on `chatDone`, a chat with
`lead_status = "lead"` and `processed_at` set. -/
theorem terminal_lead_status_skips_processing_witness :
    ((lowerStr chatDone.leadStatus ≠ [] ∧ lowerStr chatDone.leadStatus ≠ sNone) ∨
      chatDone.processedAt.isSome = true) ∧
    chatPrecheck safetyCfg [] [acct1] 0 chatDone = false ∧
    (handleLeadDetection 0 chatDone "yes deal please".toList leadCfg).chat = chatDone ∧
    (handleLeadDetection 0 chatDone
        "yes deal please".toList leadCfg).processedClientWritten = none ∧
    maybeSendFollowUp true safetyCfg 200000 9 chatDone acct1 [⟨sMe, "hi".toList⟩]
      (some "ping".toList) true = ⟨false, false, chatDone, acct1⟩ := by
  have hyp : (lowerStr chatDone.leadStatus ≠ [] ∧ lowerStr chatDone.leadStatus ≠ sNone) ∨
      chatDone.processedAt.isSome = true := by decide
  have hl1 : lowerStr chatDone.leadStatus ≠ [] := by decide
  have hl2 : lowerStr chatDone.leadStatus ≠ sNone := by decide
  have hld := terminal_lead_status_skips_processing.2.1 0 chatDone
    "yes deal please".toList leadCfg hl1 hl2
  exact ⟨hyp,
    terminal_lead_status_skips_processing.1 safetyCfg [] [acct1] 0 chatDone hyp,
    hld.1, hld.2,
    terminal_lead_status_skips_processing.2.2 true safetyCfg 200000 9 chatDone acct1
      [⟨sMe, "hi".toList⟩] (some "ping".toList) true hyp⟩

/-- C4: an account whose `cooldown_until` lies in the future is never
chosen: the initial-message selection loop never returns one, and the
reply loop screens out a chat whose account is in cooldown (it `continue`s
to the next chat instead of erroring). -/
theorem cooldown_accounts_never_selected :
    (∀ (now today limit : Nat) (accounts : List Account) (startIdx : Nat)
        (acc : Account) (i : Nat),
      findAvailableAccount now today limit accounts startIdx = some (acc, i) →
      isAccountInCooldown now acc = false) ∧
    (∀ (safety : Safety) (processed : List Str) (accounts : List Account)
        (now : Nat) (chat : Chat) (acc : Account),
      accounts.find? (fun x => decide (x.id = chat.accountId)) = some acc →
      isAccountInCooldown now acc = true →
      chatPrecheck safety processed accounts now chat = false) := by
  constructor
  · intro now today limit accounts startIdx acc i h
    exact (findAvailableAccountLoop_spec now today limit accounts
      accounts.length startIdx acc i h).1
  · intro safety processed accounts now chat acc hfind hcool
    unfold chatPrecheck
    split_ifs <;> try rfl
    rw [hfind]
    simp [hcool]

/-- C4 witness: the selection loop on `[acct1]` returns an account with no
cooldown, and `chatCooling`, whose account `acctCooling` is cooling until
t = 5000, is screened out of the reply loop at t = 0. -/
theorem cooldown_accounts_never_selected_witness :
    (findAvailableAccount 0 9 20 [acct1] 0 = some (acct1, 0) ∧
      isAccountInCooldown 0 acct1 = false) ∧
    ([acctCooling].find? (fun x => decide (x.id = chatCooling.accountId)) =
        some acctCooling ∧
      isAccountInCooldown 0 acctCooling = true ∧
      chatPrecheck safetyCfg [] [acctCooling] 0 chatCooling = false) := by
  have h1 : findAvailableAccount 0 9 20 [acct1] 0 = some (acct1, 0) := by decide
  have h2 : [acctCooling].find? (fun x => decide (x.id = chatCooling.accountId)) =
      some acctCooling := by decide
  have h3 : isAccountInCooldown 0 acctCooling = true := by decide
  exact ⟨⟨h1, cooldown_accounts_never_selected.1 0 9 20 [acct1] 0 acct1 0 h1⟩,
    ⟨h2, h3,
      cooldown_accounts_never_selected.2 safetyCfg [] [acctCooling] 0 chatCooling
        acctCooling h2 h3⟩⟩

/-- C7: the follow-up reminder reaches the transport only when follow-up is
enabled, the chat has no lead decision, no `processed_at`, no
`follow_up_sent_at`, we sent the last message, the configured delay has
elapsed since `last_message_at`, and the account is under its daily limit;
a successful send stamps `follow_up_sent_at = now`; and a chat whose
`follow_up_sent_at` is already set is returned untouched, so the reminder
can never fire twice. -/
theorem follow_up_at_most_once :
    ∀ (hasAi : Bool) (safety : Safety) (now today : Nat) (chat : Chat) (a : Account)
      (history : List Msg) (aiResponse : Option Str) (sendOk : Bool),
      ((maybeSendFollowUp hasAi safety now today chat a history aiResponse
          sendOk).attempted = true →
        hasAi = true ∧ safety.followUpEnabled = true ∧
        (lowerStr chat.leadStatus = [] ∨ lowerStr chat.leadStatus = sNone) ∧
        chat.processedAt = none ∧ chat.followUpSentAt = none ∧
        chat.lastMessageSender = sMe ∧
        (∃ lastAt, chat.lastMessageAt = some lastAt ∧
          (safety.followUpDelayHours * 3600 : Int) ≤ (now : Int) - lastAt) ∧
        getMessagesSentToday today a < safety.dailyLimit) ∧
      ((maybeSendFollowUp hasAi safety now today chat a history aiResponse
          sendOk).sent = true →
        (maybeSendFollowUp hasAi safety now today chat a history aiResponse
          sendOk).chat.followUpSentAt = some now) ∧
      (chat.followUpSentAt.isSome = true →
        maybeSendFollowUp hasAi safety now today chat a history aiResponse sendOk =
          ⟨false, false, chat, a⟩) := by
  intro hasAi safety now today chat a history aiResponse sendOk
  by_cases g1 : hasAi = false ∨ safety.followUpEnabled = false
  · simp [maybeSendFollowUp, g1]
  · have ⟨ga, gb⟩ := not_or.mp g1
    have ha : hasAi = true := by simpa using ga
    have hb : safety.followUpEnabled = true := by simpa using gb
    by_cases g2 : lowerStr chat.leadStatus ≠ [] ∧ lowerStr chat.leadStatus ≠ sNone
    · simp [maybeSendFollowUp, g1, g2]
    · have hlead : lowerStr chat.leadStatus = [] ∨ lowerStr chat.leadStatus = sNone := by
        rcases Decidable.not_and_iff_or_not.mp g2 with h | h
        · exact Or.inl (not_not.mp h)
        · exact Or.inr (not_not.mp h)
      by_cases g3 : chat.processedAt.isSome = true
      · simp [maybeSendFollowUp, g1, g2, g3]
      · have hproc : chat.processedAt = none := Option.not_isSome_iff_eq_none.mp g3
        by_cases g4 : chat.followUpSentAt.isSome = true
        · simp [maybeSendFollowUp, g1, g2, g3, g4]
        · have hfu : chat.followUpSentAt = none := Option.not_isSome_iff_eq_none.mp g4
          by_cases g5 : chat.lastMessageSender ≠ sMe
          · simp [maybeSendFollowUp, g1, g2, g3, g4, g5]
          · have hsender : chat.lastMessageSender = sMe := not_not.mp g5
            cases hlm : chat.lastMessageAt with
            | none => simp [maybeSendFollowUp, g1, g2, g3, g4, g5, hlm]
            | some lastAt =>
              by_cases g6 : (now : Int) - lastAt < safety.followUpDelayHours * 3600
              · simp [maybeSendFollowUp, g1, g2, g3, g4, g5, hlm, g6]
              · have hdelay : (safety.followUpDelayHours * 3600 : Int) ≤
                    (now : Int) - lastAt := not_lt.mp g6
                by_cases g7 : safety.dailyLimit ≤ getMessagesSentToday today a
                · simp [maybeSendFollowUp, g1, g2, g3, g4, g5, hlm, g6, g7]
                · have hlt : getMessagesSentToday today a < safety.dailyLimit :=
                    Nat.lt_of_not_le g7
                  by_cases g8 : safety.replyOnlyIfPreviouslyWrote = true ∧
                      hasMsgFromUs history = false
                  · simp [maybeSendFollowUp, g1, g2, g3, g4, g5, hlm, g6, g7, g8]
                  · rcases aiResponse with _ | resp
                    · simp [maybeSendFollowUp, g1, g2, g3, g4, g5, hlm, g6, g7, g8]
                    · by_cases g9 : resp = []
                      · simp [maybeSendFollowUp, g1, g2, g3, g4, g5, hlm, g6, g7, g8, g9]
                      · by_cases g10 : chat.targetUsername = []
                        · simp [maybeSendFollowUp, g1, g2, g3, g4, g5, hlm, g6, g7, g8,
                            g9, g10]
                        · cases hsend : sendOk
                          · simp only [maybeSendFollowUp, g1, g2, g3, g4, g5, hlm, g6,
                              g7, g8, g9, g10, hsend]
                            refine ⟨fun _ => ⟨ha, hb, hlead, hproc, hfu, hsender,
                              ⟨lastAt, rfl, hdelay⟩, hlt⟩, ?_, ?_⟩ <;> simp [hfu]
                          · simp only [maybeSendFollowUp, g1, g2, g3, g4, g5, hlm, g6,
                              g7, g8, g9, g10, hsend]
                            refine ⟨fun _ => ⟨ha, hb, hlead, hproc, hfu, hsender,
                              ⟨lastAt, rfl, hdelay⟩, hlt⟩, ?_, ?_⟩ <;> simp [hfu]

/-- C7 witness: a concrete follow-up evaluation on `chatFresh` that reaches
and completes the send (stamping `follow_up_sent_at`), and the same
evaluation on `chatFollowedUp` (already stamped), which does nothing. -/
theorem follow_up_at_most_once_witness :
    ((maybeSendFollowUp true safetyCfg 200000 9 chatFresh acct1 [⟨sMe, "hi".toList⟩]
        (some "ping".toList) true).attempted = true ∧
      (true = true ∧ safetyCfg.followUpEnabled = true ∧
        (lowerStr chatFresh.leadStatus = [] ∨ lowerStr chatFresh.leadStatus = sNone) ∧
        chatFresh.processedAt = none ∧ chatFresh.followUpSentAt = none ∧
        chatFresh.lastMessageSender = sMe ∧
        (∃ lastAt, chatFresh.lastMessageAt = some lastAt ∧
          (safetyCfg.followUpDelayHours * 3600 : Int) ≤ (200000 : Int) - lastAt) ∧
        getMessagesSentToday 9 acct1 < safetyCfg.dailyLimit)) ∧
    ((maybeSendFollowUp true safetyCfg 200000 9 chatFresh acct1 [⟨sMe, "hi".toList⟩]
        (some "ping".toList) true).sent = true ∧
      (maybeSendFollowUp true safetyCfg 200000 9 chatFresh acct1 [⟨sMe, "hi".toList⟩]
        (some "ping".toList) true).chat.followUpSentAt = some 200000) ∧
    (chatFollowedUp.followUpSentAt.isSome = true ∧
      maybeSendFollowUp true safetyCfg 200000 9 chatFollowedUp acct1
        [⟨sMe, "hi".toList⟩] (some "ping".toList) true =
        ⟨false, false, chatFollowedUp, acct1⟩) := by
  have hatt : (maybeSendFollowUp true safetyCfg 200000 9 chatFresh acct1
      [⟨sMe, "hi".toList⟩] (some "ping".toList) true).attempted = true := by decide
  have hsent : (maybeSendFollowUp true safetyCfg 200000 9 chatFresh acct1
      [⟨sMe, "hi".toList⟩] (some "ping".toList) true).sent = true := by decide
  have hfu : chatFollowedUp.followUpSentAt.isSome = true := by decide
  have big := follow_up_at_most_once true safetyCfg 200000 9 chatFresh acct1
    [⟨sMe, "hi".toList⟩] (some "ping".toList) true
  have big2 := follow_up_at_most_once true safetyCfg 200000 9 chatFollowedUp acct1
    [⟨sMe, "hi".toList⟩] (some "ping".toList) true
  exact ⟨⟨hatt, big.1 hatt⟩, ⟨hsent, big.2.1 hsent⟩, ⟨hfu, big2.2.2 hfu⟩⟩

/-- C8: in a reply turn that is taken (AI enabled and neither guard stops
it), a falsy AI draft with `use_fallback_on_ai_fail` set and a non-empty
fallback text X makes the worker send X, and on transport success the
history records X as sent by us; with the fallback disabled or empty, the
turn sends nothing and leaves the conversation open (status, lead_status
and processed_at untouched). -/
theorem ai_fallback_on_failure :
    (∀ (safety : Safety) (ls : LeadSettings) (now today : Nat) (a : Account)
        (chat : Chat) (history : List Msg) (incoming : Str) (aiResponse : Option Str),
      incoming ≠ [] →
      (safety.replyOnlyIfPreviouslyWrote = true →
        hasMsgFromUs (history ++ [⟨sThem, incoming⟩]) = true) →
      getMessagesSentToday today a < safety.dailyLimit →
      (aiResponse = none ∨ aiResponse = some []) →
      ls.useFallbackOnAiFail = true → ls.fallbackText ≠ [] →
      (processIncomingMessage true safety ls now today a chat history incoming
          aiResponse true).attemptedSend = some ls.fallbackText ∧
      (processIncomingMessage true safety ls now today a chat history incoming
          aiResponse true).history =
        history ++ [⟨sThem, incoming⟩, ⟨sMe, ls.fallbackText⟩]) ∧
    (∀ (safety : Safety) (ls : LeadSettings) (now today : Nat) (a : Account)
        (chat : Chat) (history : List Msg) (incoming : Str) (aiResponse : Option Str)
        (sendOk : Bool),
      incoming ≠ [] →
      (aiResponse = none ∨ aiResponse = some []) →
      ¬(ls.useFallbackOnAiFail = true ∧ ls.fallbackText ≠ []) →
      (processIncomingMessage true safety ls now today a chat history incoming
          aiResponse sendOk).attemptedSend = none ∧
      (processIncomingMessage true safety ls now today a chat history incoming
          aiResponse sendOk).chat.leadStatus = chat.leadStatus ∧
      (processIncomingMessage true safety ls now today a chat history incoming
          aiResponse sendOk).chat.processedAt = chat.processedAt ∧
      (processIncomingMessage true safety ls now today a chat history incoming
          aiResponse sendOk).chat.status = chat.status) := by
  constructor
  · intro safety ls now today a chat history incoming aiResponse hInc hShould hLimit
      hAi hFb hFbText
    have h2 : ¬(safety.replyOnlyIfPreviouslyWrote = true ∧
        hasMsgFromUs (history ++ [⟨sThem, incoming⟩]) = false) := by
      rintro ⟨hr, hm⟩
      rw [hShould hr] at hm
      simp at hm
    have h3 : ¬(safety.dailyLimit ≤ getMessagesSentToday today a) :=
      not_le.mpr hLimit
    rcases hAi with rfl | rfl
    · simp [processIncomingMessage, hInc, h2, h3, hFb, hFbText]
    · simp [processIncomingMessage, hInc, h2, h3, hFb, hFbText]
  · intro safety ls now today a chat history incoming aiResponse sendOk hInc hAi hFbOff
    by_cases h2 : safety.replyOnlyIfPreviouslyWrote = true ∧
        hasMsgFromUs (history ++ [⟨sThem, incoming⟩]) = false
    · simp [processIncomingMessage, hInc, h2]
    · by_cases h3 : safety.dailyLimit ≤ getMessagesSentToday today a
      · simp [processIncomingMessage, hInc, h2, h3]
      · rcases hAi with rfl | rfl
        · simp [processIncomingMessage, hInc, h2, h3, hFbOff]
        · simp [processIncomingMessage, hInc, h2, h3, hFbOff]

/-- C8 witness: a concrete failed-draft turn with the fallback enabled
(sends "fallback text") and the same turn with the fallback disabled
(sends nothing, chat stays open). -/
theorem ai_fallback_on_failure_witness :
    ((processIncomingMessage true safetyCfg leadCfg 0 9 acct1 chatFresh
        [⟨sMe, "hi".toList⟩] "hello".toList none true).attemptedSend =
        some leadCfg.fallbackText ∧
      (processIncomingMessage true safetyCfg leadCfg 0 9 acct1 chatFresh
        [⟨sMe, "hi".toList⟩] "hello".toList none true).history =
        [⟨sMe, "hi".toList⟩] ++ [⟨sThem, "hello".toList⟩, ⟨sMe, leadCfg.fallbackText⟩]) ∧
    ((processIncomingMessage true safetyCfg ⟨"yes deal".toList, "no deal".toList, false, []⟩
        0 9 acct1 chatFresh [⟨sMe, "hi".toList⟩] "hello".toList none true).attemptedSend =
        none ∧
      (processIncomingMessage true safetyCfg ⟨"yes deal".toList, "no deal".toList, false, []⟩
        0 9 acct1 chatFresh [⟨sMe, "hi".toList⟩] "hello".toList none
        true).chat.leadStatus = chatFresh.leadStatus) := by
  have ha := ai_fallback_on_failure.1 safetyCfg leadCfg 0 9 acct1 chatFresh
    [⟨sMe, "hi".toList⟩] "hello".toList none (by decide) (fun _ => by decide)
    (by decide) (Or.inl rfl) (by decide) (by decide)
  have hb := ai_fallback_on_failure.2 safetyCfg
    ⟨"yes deal".toList, "no deal".toList, false, []⟩ 0 9 acct1 chatFresh
    [⟨sMe, "hi".toList⟩] "hello".toList none true (by decide) (Or.inl rfl) (by decide)
  exact ⟨⟨ha.1, ha.2⟩, ⟨hb.1, hb.2.1⟩⟩

/-- C9 counterexample: the bot-name filter runs before the processed-client
check, so a pending target whose handle "alicebot" is already a
ProcessedClient is failed with reason "Bot username", not "Processed
client" as the claim states (the target is still never contacted). -/
theorem processed_client_claim_counterexample :
    normalizeUsername "alicebot".toList ∈ ["alicebot".toList] ∧
    initialTargetCheck true ["alicebot".toList] "alicebot".toList [] =
      TargetOutcome.failedBot ∧
    TargetOutcome.failedBot ≠ TargetOutcome.failedProcessed := by decide

/-- C9 (amended): a pending target whose handle's non-empty normalization
is recorded as a ProcessedClient is never contacted by the initial phase —
it is failed with reason "Processed client", unless the bot-name filter
already failed it with "Bot username"; the reply phase screens such chats
out; and a fresh lead decision on a chat with a handle writes the
ProcessedClient record for the normalized handle. -/
theorem processed_client_never_recontacted :
    (∀ (ignoreBots : Bool) (processed : List Str) (username phone : Str),
      username ≠ [] → normalizeUsername username ≠ [] →
      normalizeUsername username ∈ processed →
      (∀ h, initialTargetCheck ignoreBots processed username phone ≠
        TargetOutcome.send h) ∧
      (¬(ignoreBots = true ∧ isBotLikeInitial username = true) →
        initialTargetCheck ignoreBots processed username phone =
          TargetOutcome.failedProcessed)) ∧
    (∀ (safety : Safety) (processed : List Str) (accounts : List Account)
        (now : Nat) (chat : Chat),
      normalizeUsername chat.targetUsername ≠ [] →
      normalizeUsername chat.targetUsername ∈ processed →
      chatPrecheck safety processed accounts now chat = false) ∧
    (∀ (now : Nat) (chat : Chat) (response : Str) (ls : LeadSettings) (leadSt : Str),
      detectLeadStatus response ls = some leadSt →
      (lowerStr chat.leadStatus = [] ∨ lowerStr chat.leadStatus = sNone) →
      chat.targetUsername ≠ [] →
      (handleLeadDetection now chat response ls).processedClientWritten =
        some (normalizeUsername chat.targetUsername)) := by
  refine ⟨?_, ?_, ?_⟩
  · intro ignoreBots processed username phone hu hn hmem
    constructor
    · intro h
      by_cases hbot : ignoreBots = true ∧ isBotLikeInitial username = true
      · simp [initialTargetCheck, hu, hbot.1, hbot.2]
      · simp [initialTargetCheck, hu, hn, hmem, hbot]
    · intro hnbot
      simp [initialTargetCheck, hu, hn, hmem, hnbot]
  · intro safety processed accounts now chat hn hmem
    unfold chatPrecheck
    split_ifs with h1 h2 h3 h4 h5 <;> try rfl
    exact absurd ⟨hn, hmem⟩ h4
  · intro now chat response ls leadSt hd hfresh hu
    have hex : ¬(lowerStr chat.leadStatus ≠ [] ∧ lowerStr chat.leadStatus ≠ sNone) := by
      rcases hfresh with h | h <;> simp [h]
    simp [handleLeadDetection, hd, hex, hu]

/-- C9 witness: the amended statement on concrete data — target "carol"
already processed (bot filter off) is failed as "Processed client";
chat "alice" with a processed handle is screened out of the reply loop; a
fresh positive lead decision on chat "alice" writes the normalized
ProcessedClient record. -/
theorem processed_client_never_recontacted_witness :
    (normalizeUsername "carol".toList ∈ ["carol".toList] ∧
      initialTargetCheck false ["carol".toList] "carol".toList [] =
        TargetOutcome.failedProcessed) ∧
    (normalizeUsername chatFresh.targetUsername ∈ ["alice".toList] ∧
      chatPrecheck safetyCfg ["alice".toList] [acct1] 0 chatFresh = false) ∧
    (detectLeadStatus "yes deal ok".toList leadCfg = some sLead ∧
      (handleLeadDetection 0 chatFresh "yes deal ok".toList
          leadCfg).processedClientWritten =
        some (normalizeUsername chatFresh.targetUsername)) := by
  have hd : detectLeadStatus "yes deal ok".toList leadCfg = some sLead := by decide
  exact ⟨⟨by decide,
      (processed_client_never_recontacted.1 false ["carol".toList] "carol".toList []
        (by decide) (by decide) (by decide)).2 (by decide)⟩,
    ⟨by decide,
      processed_client_never_recontacted.2.1 safetyCfg ["alice".toList] [acct1] 0
        chatFresh (by decide) (by decide)⟩,
    ⟨hd,
      processed_client_never_recontacted.2.2 0 chatFresh "yes deal ok".toList leadCfg
        sLead hd (Or.inl (by decide)) (by decide)⟩⟩

/-- C6 witness: the general window characterization instantiated on the
parsed "21:00-08:00" window at 23:00. -/
theorem sleep_window_characterization_witness :
    parseSleepPeriod "21:00-08:00".toList = some ((21, 0), (8, 0)) ∧
    isSleepTime ["21:00-08:00".toList] (23, 0) =
      some (if timeLtB (8, 0) (21, 0) = true then
              timeLeB (21, 0) (23, 0) || timeLeB (23, 0) (8, 0)
            else timeLeB (21, 0) (23, 0) && timeLeB (23, 0) (8, 0)) := by
  have hp : parseSleepPeriod "21:00-08:00".toList = some ((21, 0), (8, 0)) := by decide
  exact ⟨hp, sleep_window_characterization.1 "21:00-08:00".toList 21 0 8 0 (23, 0) hp
    (by norm_num) (by norm_num) (by norm_num) (by norm_num)⟩
